import Mathlib

attribute [local semireducible] Rat.add Rat.mul Rat.sub Rat.inv

/-!
Shallow embedding of `src/src/pid_controller/pid_controller.cpp`
(class `mrs_controllers::nsf_controller::NsfController`).

Modelling conventions:

* Machine doubles are modelled as `NFl`: either an exact rational
  (`NFl.fin q`) or a non-finite value (`NFl.bad`, standing for IEEE
  NaN/±Inf).  Arithmetic on `NFl` propagates `bad` absorbingly, and
  division by zero produces `bad`, matching the fact that every
  non-finite double is caught by the code's `std::isfinite` guards.
* Controller state scalars are exact rationals: every store into the
  persistent state in the source goes through a saturation block whose
  `isfinite` guard resets non-finite values to `0`, so the stored values
  are always finite.
* The transcendental library functions `cos`, `sin`, `asin`, `sqrt` used
  by the source are abstracted as an arbitrary function environment
  `Tri`; theorems quantify over all such environments unless they need a
  concrete instance.
* ROS timestamps are rationals (seconds); frame ids are naturals; the
  frame-transform service of `switchOdometrySource` is an arbitrary
  function returning `Option` (`none` = transform failure).
-/

/-- A double: a finite rational or a non-finite value (NaN/Inf). -/
inductive NFl where
  | fin (q : ℚ)
  | bad
deriving DecidableEq, Repr

namespace NFl

/-- Addition; any non-finite operand yields a non-finite result. -/
def add : NFl → NFl → NFl
  | fin a, fin b => fin (a + b)
  | _, _ => bad

/-- Multiplication; any non-finite operand yields a non-finite result. -/
def mul : NFl → NFl → NFl
  | fin a, fin b => fin (a * b)
  | _, _ => bad

/-- Negation. -/
def neg : NFl → NFl
  | fin a => fin (-a)
  | bad => bad

/-- Division; division by zero and non-finite operands are non-finite. -/
def div : NFl → NFl → NFl
  | fin a, fin b => if b = 0 then bad else fin (a / b)
  | _, _ => bad

instance : Add NFl := ⟨add⟩
instance : Mul NFl := ⟨mul⟩
instance : Neg NFl := ⟨neg⟩
instance : Sub NFl := ⟨fun a b => a.add b.neg⟩

/-- Lift a rational function pointwise (non-finite maps to non-finite). -/
def map (f : ℚ → ℚ) : NFl → NFl
  | fin a => fin (f a)
  | bad => bad

@[simp] theorem add_def (a b : ℚ) : (fin a) + (fin b) = fin (a + b) := rfl
@[simp] theorem mul_def (a b : ℚ) : (fin a) * (fin b) = fin (a * b) := rfl
@[simp] theorem neg_def (a : ℚ) : -(fin a) = fin (-a) := rfl
@[simp] theorem sub_def (a b : ℚ) : (fin a) - (fin b) = fin (a + -b) := rfl
@[simp] theorem add_bad (a : NFl) : a + bad = bad := by cases a <;> rfl
@[simp] theorem bad_add (a : NFl) : bad + a = bad := rfl
@[simp] theorem mul_bad (a : NFl) : a * bad = bad := by cases a <;> rfl
@[simp] theorem bad_mul (a : NFl) : bad * a = bad := rfl
@[simp] theorem neg_bad : -bad = bad := rfl
@[simp] theorem sub_bad (a : NFl) : a - bad = bad := by cases a <;> rfl
@[simp] theorem bad_sub (a : NFl) : bad - a = bad := rfl
@[simp] theorem bad_div (a : NFl) : bad.div a = bad := rfl
@[simp] theorem div_bad (a : NFl) : a.div bad = bad := by cases a <;> rfl
@[simp] theorem map_bad (f : ℚ → ℚ) : map f bad = bad := rfl
@[simp] theorem map_fin (f : ℚ → ℚ) (a : ℚ) : map f (fin a) = fin (f a) := rfl

end NFl

/-- Environment of transcendental functions used by the source
(`cos`, `sin`, `asin`, `sqrt`), abstracted as arbitrary functions. -/
structure Tri where
  cosF : ℚ → ℚ
  sinF : ℚ → ℚ
  asinQ : ℚ → ℚ
  sqrtQ : ℚ → ℚ

/-- Constant parameters fixed at `initialize()`. -/
structure Params where
  uav_mass : ℚ
  g : ℚ
  hover_thrust_a : ℚ
  hover_thrust_b : ℚ
  max_tilt_angle : ℚ
  thrust_saturation : ℚ
  mute_coefficitent : ℚ
  gains_filter_max_change : ℚ
  gains_filter_min_change : ℚ
deriving DecidableEq, Repr

/-- The live/desired gain set (`kpxy` … `km_lim`). -/
structure Gains where
  kpxy : ℚ
  kvxy : ℚ
  kaxy : ℚ
  kiwxy : ℚ
  kibxy : ℚ
  kpz : ℚ
  kvz : ℚ
  kaz : ℚ
  kiwxy_lim : ℚ
  kibxy_lim : ℚ
  km : ℚ
  km_lim : ℚ
deriving DecidableEq, Repr

/-- `mrs_msgs::UavState` as consumed by the controller: timestamp, frame
id, position, orientation (already extracted to roll/pitch/yaw, since
`getRPY` of a quaternion is abstracted away), linear velocity. -/
structure UavState where
  stamp : ℚ
  frame_id : ℕ
  pos_x : NFl
  pos_y : NFl
  pos_z : NFl
  roll : ℚ
  pitch : ℚ
  yaw : ℚ
  vel_x : NFl
  vel_y : NFl
  vel_z : NFl
deriving DecidableEq, Repr

/-- `mrs_msgs::PositionCommand` (the reference). -/
structure Reference where
  pos_x : NFl
  pos_y : NFl
  pos_z : NFl
  vel_x : NFl
  vel_y : NFl
  vel_z : NFl
  acc_x : NFl
  acc_y : NFl
  acc_z : NFl
  yaw : ℚ
  disable_position_gains : Bool
deriving DecidableEq, Repr

/-- `mrs_msgs::AttitudeCommand`, restricted to the fields the controller
reads or writes. -/
structure AttitudeCommand where
  euler_x : ℚ
  euler_y : ℚ
  euler_z : ℚ
  thrust : ℚ
  mass_difference : ℚ
  total_mass : ℚ
  disturbance_bx_b : ℚ
  disturbance_by_b : ℚ
  disturbance_bx_w : ℚ
  disturbance_by_w : ℚ
  disturbance_wx_w : ℚ
  disturbance_wy_w : ℚ
  controller_enforcing_constraints : Bool
deriving DecidableEq, Repr

/-- The mutable member state of `NsfController`. -/
structure NsfState where
  uav_mass_difference : ℚ
  Iw_w_x : ℚ
  Iw_w_y : ℚ
  Ib_b_x : ℚ
  Ib_b_y : ℚ
  last_update : ℚ
  is_active : Bool
  first_iteration : Bool
  last_output_command : Option AttitudeCommand
  activation_control_command : AttitudeCommand
  mute_lateral_gains : Bool
  mutex_lateral_gains_after_toggle : Bool
  uav_state : UavState
deriving DecidableEq, Repr

/-- `mrs_lib::sign` on a rational: `(0 < x) - (x < 0)`. -/
def signQ (x : ℚ) : ℤ :=
  if 0 < x then 1 else if x < 0 then -1 else 0

/-- `mrs_lib::sign` on a double; all comparisons with NaN are false, so a
non-finite argument yields `0`. -/
def signN : NFl → ℤ
  | .fin q => signQ q
  | .bad => 0

/-- `NsfController::rotate2d` (Eigen `Rotation2D(angle)` applied to a
vector) on finite scalars. -/
def rotate2d (T : Tri) (vx vy ang : ℚ) : ℚ × ℚ :=
  (T.cosF ang * vx - T.sinF ang * vy, T.sinF ang * vx + T.cosF ang * vy)

/-- `rotate2d` applied to possibly non-finite components. -/
def rotate2dN (T : Tri) (vx vy : NFl) (ang : ℚ) : NFl × NFl :=
  (NFl.fin (T.cosF ang) * vx - NFl.fin (T.sinF ang) * vy,
   NFl.fin (T.sinF ang) * vx + NFl.fin (T.cosF ang) * vy)

/-- The X/Y saturation block of `update()`: non-finite resets to `0`
(not saturated); otherwise clamp to `±lim`, flagging saturation. -/
def satTilt (v : NFl) (lim : ℚ) : ℚ × Bool :=
  match v with
  | .bad => (0, false)
  | .fin q => if q > lim then (lim, true) else if q < -lim then (-lim, true) else (q, false)

/-- The Z (thrust) saturation block of `update()`: non-finite resets to
`0`; otherwise clamp to `[0, sat]` — the lower bound is `0`, not `-sat`. -/
def satThrust (v : NFl) (sat : ℚ) : ℚ × Bool :=
  match v with
  | .bad => (0, false)
  | .fin q => if q > sat then (sat, true) else if q < 0 then (0, true) else (q, false)

/-- The integral/mass saturation block of `update()`: non-finite resets
to `0`; otherwise clamp to `±lim`. -/
def satInt (v : NFl) (lim : ℚ) : ℚ :=
  match v with
  | .bad => 0
  | .fin q => if q > lim then lim else if q < -lim then -lim else q

/-- Symmetric clamp of a finite value (specification-side shorthand for
`satInt` on a finite input). -/
def clampSym (q lim : ℚ) : ℚ :=
  if q > lim then lim else if q < -lim then -lim else q

/-- `fabs` on an exact rational. -/
def fabsQ (q : ℚ) : ℚ := if q < 0 then -q else q

/-- Hover thrust, recomputed every tick:
`sqrt(total_mass * g) * hover_thrust_a + hover_thrust_b`. -/
def hoverThrust (T : Tri) (P : Params) (mass_difference : ℚ) : ℚ :=
  T.sqrtQ ((P.uav_mass + mass_difference) * P.g) * P.hover_thrust_a + P.hover_thrust_b

/-- World-frame position error, X component (`Ep = Rp - Op`). -/
def epX (uav : UavState) (ref : Reference) : NFl := ref.pos_x - uav.pos_x

/-- World-frame position error, Y component; the source negates the Y
coordinate of both the reference and the state. -/
def epY (uav : UavState) (ref : Reference) : NFl := -ref.pos_y - -uav.pos_y

/-- World-frame position error, Z component. -/
def epZ (uav : UavState) (ref : Reference) : NFl := ref.pos_z - uav.pos_z

/-- World-frame velocity error, X component. -/
def evX (uav : UavState) (ref : Reference) : NFl := ref.vel_x - uav.vel_x

/-- World-frame velocity error, Y component (negated as for `epY`). -/
def evY (uav : UavState) (ref : Reference) : NFl := -ref.vel_y - -uav.vel_y

/-- World-frame velocity error, Z component. -/
def evZ (uav : UavState) (ref : Reference) : NFl := ref.vel_z - uav.vel_z

/-- Feed-forward X: `asin((acc.x * cos(pitch) * cos(roll)) / g)`. -/
def ffX (T : Tri) (P : Params) (uav : UavState) (ref : Reference) : NFl :=
  NFl.map T.asinQ
    (((ref.acc_x * NFl.fin (T.cosF uav.pitch)) * NFl.fin (T.cosF uav.roll)).div (NFl.fin P.g))

/-- Feed-forward Y: `asin((-acc.y * cos(pitch) * cos(roll)) / g)`. -/
def ffY (T : Tri) (P : Params) (uav : UavState) (ref : Reference) : NFl :=
  NFl.map T.asinQ
    ((((-ref.acc_y) * NFl.fin (T.cosF uav.pitch)) * NFl.fin (T.cosF uav.roll)).div (NFl.fin P.g))

/-- Feed-forward Z: `acc.z * (hover_thrust / g)`. -/
def ffZ (T : Tri) (P : Params) (uav : UavState) (ref : Reference) (hover : ℚ) : NFl :=
  ref.acc_z * ((NFl.fin hover).div (NFl.fin P.g))

/-- Body integral rotated into the world frame (`rotate2d(Ib_b, -yaw)`),
computed from the pre-tick state. -/
def ibWorld (T : Tri) (s : NsfState) (uav : UavState) : ℚ × ℚ :=
  rotate2d T s.Ib_b_x s.Ib_b_y (-uav.yaw)

/-- Raw world feedback, X component:
`kpxy*Ep_x + kvxy*Ev_x + kaxy*ff_x + (Ib_w + Iw_w)_x` (the horizontal
components are multiplied by `1` in the tilt-compensation product). -/
def feedbackWX (T : Tri) (P : Params) (G : Gains) (s : NsfState) (uav : UavState)
    (ref : Reference) : NFl :=
  NFl.fin G.kpxy * epX uav ref + NFl.fin G.kvxy * evX uav ref +
    NFl.fin G.kaxy * ffX T P uav ref + NFl.fin ((ibWorld T s uav).1 + s.Iw_w_x)

/-- Raw world feedback, Y component. -/
def feedbackWY (T : Tri) (P : Params) (G : Gains) (s : NsfState) (uav : UavState)
    (ref : Reference) : NFl :=
  NFl.fin G.kpxy * epY uav ref + NFl.fin G.kvxy * evY uav ref +
    NFl.fin G.kaxy * ffY T P uav ref + NFl.fin ((ibWorld T s uav).2 + s.Iw_w_y)

/-- Raw world feedback, Z component:
`(kpz*Ep_z + kvz*Ev_z + kaz*ff_z + hover_thrust) * (1/(cos(roll)*cos(pitch)))`. -/
def feedbackWZ (T : Tri) (P : Params) (G : Gains) (s : NsfState) (uav : UavState)
    (ref : Reference) : NFl :=
  let hover := hoverThrust T P s.uav_mass_difference
  (NFl.fin G.kpz * epZ uav ref + NFl.fin G.kvz * evZ uav ref +
      NFl.fin G.kaz * ffZ T P uav ref hover + NFl.fin hover) *
    ((NFl.fin 1).div (NFl.fin (T.cosF uav.roll * T.cosF uav.pitch)))

/-- One completed control tick: the body of `NsfController::update`
after the `dt` guard (mute-flag handling, feedback computation,
saturation, the three integrator updates, and output construction).
Returns the fresh output command and the post-tick state. -/
def fullTick (T : Tri) (P : Params) (G : Gains) (s : NsfState) (uav : UavState)
    (ref : Reference) (dt : ℚ) : AttitudeCommand × NsfState :=
  let total_mass := P.uav_mass + s.uav_mass_difference
  let after_toggle := s.mutex_lateral_gains_after_toggle ||
    (s.mute_lateral_gains && !ref.disable_position_gains)
  let mute := ref.disable_position_gains
  let Ib_w := ibWorld T s uav
  let ex := epX uav ref
  let ey := epY uav ref
  let ez := epZ uav ref
  let sx := satTilt (feedbackWX T P G s uav ref) P.max_tilt_angle
  let sy := satTilt (feedbackWY T P G s uav ref) P.max_tilt_angle
  let sz := satThrust (feedbackWZ T P G s uav ref) P.thrust_saturation
  let swx : ℚ := if sx.2 && (signQ sx.1 == signN ex) then 0 else 1
  let swy : ℚ := if sy.2 && (signQ sy.1 == signN ey) then 0 else 1
  let iwx := satInt (NFl.fin s.Iw_w_x + NFl.fin G.kiwxy * (ex * NFl.fin swx) * NFl.fin dt)
    G.kiwxy_lim
  let iwy := satInt (NFl.fin s.Iw_w_y + NFl.fin G.kiwxy * (ey * NFl.fin swy) * NFl.fin dt)
    G.kiwxy_lim
  let eb := rotate2dN T ex ey uav.yaw
  let ibx := satInt (NFl.fin s.Ib_b_x + NFl.fin G.kibxy * eb.1 * NFl.fin dt) G.kibxy_lim
  let iby := satInt (NFl.fin s.Ib_b_y + NFl.fin G.kibxy * eb.2 * NFl.fin dt) G.kibxy_lim
  let md := satInt
    (if sz.2 then NFl.fin s.uav_mass_difference
     else NFl.fin s.uav_mass_difference + NFl.fin G.km * ez * NFl.fin dt) G.km_lim
  let fb := rotate2d T sx.1 sy.1 uav.yaw
  let out : AttitudeCommand :=
    { euler_x := fb.2
      euler_y := fb.1
      euler_z := ref.yaw
      thrust := sz.1
      mass_difference := md
      total_mass := total_mass
      disturbance_bx_b := P.g * total_mass * T.sinF ibx
      disturbance_by_b := P.g * total_mass * T.sinF iby
      disturbance_bx_w := P.g * total_mass * T.sinF Ib_w.1
      disturbance_by_w := P.g * total_mass * T.sinF Ib_w.2
      disturbance_wx_w := P.g * total_mass * T.sinF iwx
      disturbance_wy_w := P.g * total_mass * T.sinF iwy
      controller_enforcing_constraints := false }
  (out,
   { s with
     Iw_w_x := iwx
     Iw_w_y := iwy
     Ib_b_x := ibx
     Ib_b_y := iby
     uav_mass_difference := md
     mute_lateral_gains := mute
     mutex_lateral_gains_after_toggle := after_toggle
     last_output_command := some out })

/-- `NsfController::update`.  The supplied `UavState` is stored into the
state snapshot first; an inactive controller returns no command; the
bootstrap tick returns the activation command; `|dt| <= 0.001` returns
the last output (or the activation command) — note the timestamp has
already been stored; otherwise a full tick runs. -/
def update (T : Tri) (P : Params) (G : Gains) (s : NsfState) (uav : UavState)
    (ref : Reference) : Option AttitudeCommand × NsfState :=
  let s1 := { s with uav_state := uav }
  if s.is_active = false then (none, s1)
  else if s.first_iteration = true then
    (some s.activation_control_command,
     { s1 with last_update := uav.stamp, first_iteration := false })
  else
    let dt := uav.stamp - s.last_update
    let s2 := { s1 with last_update := uav.stamp }
    if fabsQ dt ≤ 1 / 1000 then
      (some (s.last_output_command.getD s.activation_control_command), s2)
    else
      let r := fullTick T P G s2 uav ref dt
      (some r.1, r.2)

/-- `NsfController::activate`: without a seed command, fail and leave
the state untouched; with a seed, store it (with
`controller_enforcing_constraints` cleared), seed the mass difference
and both integrator pairs (by inverting the disturbance-to-angle
relation), mark the bootstrap tick, and become active. -/
def activate (T : Tri) (P : Params) (s : NsfState) (cmd : Option AttitudeCommand) :
    Bool × NsfState :=
  match cmd with
  | none => (false, s)
  | some c =>
      (true,
       { s with
         activation_control_command := { c with controller_enforcing_constraints := false }
         uav_mass_difference := c.mass_difference
         Ib_b_x := T.asinQ (c.disturbance_bx_b / (P.g * c.total_mass))
         Ib_b_y := T.asinQ (c.disturbance_by_b / (P.g * c.total_mass))
         Iw_w_x := T.asinQ (c.disturbance_wx_w / (P.g * c.total_mass))
         Iw_w_y := T.asinQ (c.disturbance_wy_w / (P.g * c.total_mass))
         first_iteration := true
         is_active := true })

/-- `NsfController::switchOdometrySource`: transform the world integral
from the frame of the last stored `UavState` snapshot into the frame of
the supplied message; on success store the transformed vector, on
failure reset the world integral to `(0, 0)`.  No error is returned. -/
def switchOdometrySource (tr : ℕ → ℕ → ℚ × ℚ → Option (ℚ × ℚ)) (s : NsfState)
    (msg : UavState) : NsfState :=
  match tr s.uav_state.frame_id msg.frame_id (s.Iw_w_x, s.Iw_w_y) with
  | some v => { s with Iw_w_x := v.1, Iw_w_y := v.2 }
  | none => { s with Iw_w_x := 0, Iw_w_y := 0 }

/-- `NsfController::calculateGainChange` with rate limits
`gmax = gains_filter_max_change_` and `gmin = gains_filter_min_change_`. -/
def calculateGainChange (gmax gmin : ℚ) (current desired : ℚ) (bypass_rate : Bool) : ℚ :=
  let change := desired - current
  let change2 :=
    if bypass_rate then change
    else if fabsQ current < 1 / 1000000 then change * gmax
    else
      let change_in_perc := (current + change) / current - 1
      let saturated_change :=
        if change_in_perc > gmax then current * gmax
        else if change_in_perc < -gmax then current * (-gmax)
        else change
      if fabsQ saturated_change < fabsQ change * gmin then change * gmin else saturated_change
  current + change2

/-- The `bypass_filter` value computed at the top of
`NsfController::timerGainsFilter`. -/
def bypassFilter (mute_lateral_gains mutex_lateral_gains_after_toggle : Bool) : Bool :=
  mute_lateral_gains || mutex_lateral_gains_after_toggle

/-- `NsfController::timerGainsFilter`: one gain-scheduler tick.  Takes
the desired gain set `dg` and the live set `g` together with the two
mute flags, returns the new live set and the new value of
`mutex_lateral_gains_after_toggle` (always cleared). -/
def timerGainsFilter (P : Params) (dg g : Gains)
    (mute_lateral_gains mutex_lateral_gains_after_toggle : Bool) : Gains × Bool :=
  let bypass := bypassFilter mute_lateral_gains mutex_lateral_gains_after_toggle
  let gain_coeff : ℚ := if mute_lateral_gains then P.mute_coefficitent else 1
  let gmax := P.gains_filter_max_change
  let gmin := P.gains_filter_min_change
  ({ kpxy := calculateGainChange gmax gmin g.kpxy (dg.kpxy * gain_coeff) bypass
     kvxy := calculateGainChange gmax gmin g.kvxy (dg.kvxy * gain_coeff) bypass
     kaxy := calculateGainChange gmax gmin g.kaxy (dg.kaxy * gain_coeff) bypass
     kiwxy := calculateGainChange gmax gmin g.kiwxy (dg.kiwxy * gain_coeff) bypass
     kibxy := calculateGainChange gmax gmin g.kibxy (dg.kibxy * gain_coeff) bypass
     kpz := calculateGainChange gmax gmin g.kpz dg.kpz false
     kvz := calculateGainChange gmax gmin g.kvz dg.kvz false
     kaz := calculateGainChange gmax gmin g.kaz dg.kaz false
     km := calculateGainChange gmax gmin g.km dg.km false
     kiwxy_lim := calculateGainChange gmax gmin g.kiwxy_lim dg.kiwxy_lim false
     kibxy_lim := calculateGainChange gmax gmin g.kibxy_lim dg.kibxy_lim false
     km_lim := calculateGainChange gmax gmin g.km_lim dg.km_lim false },
   false)

/-- Events touching the lateral-gain mute flags: a completed control
tick carrying `reference.disable_position_gains`, or a gain-scheduler
tick. -/
inductive GEvent where
  | updTick (disable : Bool)
  | gainsTick
deriving DecidableEq, Repr

/-- Evolution of `(mute_lateral_gains, mutex_lateral_gains_after_toggle)`
under one event, as implemented by `fullTick` and `timerGainsFilter`. -/
def muteStep (st : Bool × Bool) : GEvent → Bool × Bool
  | .updTick d => (d, st.2 || (st.1 && !d))
  | .gainsTick => (st.1, false)

/-- The mute flags after a sequence of events. -/
def muteRun (st : Bool × Bool) : List GEvent → Bool × Bool
  | [] => st
  | e :: es => muteRun (muteStep st e) es

/-- Whether a trace contains a gain-scheduler tick. -/
def hasGainsTick : List GEvent → Bool
  | [] => false
  | .gainsTick :: _ => true
  | .updTick _ :: es => hasGainsTick es

/-- Specification-side predicate: some control tick in the trace turns
the mute flag from `true` back to `false` and no gain-scheduler tick
runs afterwards (so the toggle-off is still pending at the end).
`m` is the mute flag at the start of the trace. -/
def toggleOffPending (m : Bool) : List GEvent → Bool
  | [] => false
  | .updTick d :: es => (m && !d && !hasGainsTick es) || toggleOffPending d es
  | .gainsTick :: es => toggleOffPending m es

/-- Specification-side value of the mute flag at the end of a trace:
the `disable` value of the last control tick (or the initial value). -/
def lastDisable (m : Bool) : List GEvent → Bool
  | [] => m
  | .updTick d :: es => lastDisable d es
  | .gainsTick :: es => lastDisable m es

/-- The gain-scheduler iteration of the C4 counterexample:
`advance` from `1` toward `100` with
`maxChangeFraction = minChangeFraction = 1/10`. -/
def gainIter : ℕ → ℚ
  | 0 => 1
  | n + 1 => calculateGainChange (1 / 10) (1 / 10) (gainIter n) 100 false

/-! Concrete instances used by witnesses and counterexamples. -/

/-- A concrete transcendental-function environment: level attitude
(`cos = 1`, `sin = 0`) and identity `asin`/`sqrt`. -/
def tri0 : Tri := ⟨fun _ => 1, fun _ => 0, id, id⟩

/-- Concrete controller parameters. -/
def P0 : Params :=
  { uav_mass := 1, g := 10, hover_thrust_a := 0, hover_thrust_b := 1 / 2,
    max_tilt_angle := 1 / 10, thrust_saturation := 1, mute_coefficitent := 1 / 2,
    gains_filter_max_change := 1 / 10, gains_filter_min_change := 1 / 100 }

/-- Concrete gain set. -/
def G0 : Gains :=
  { kpxy := 1, kvxy := 0, kaxy := 0, kiwxy := 1, kibxy := 1, kpz := 1, kvz := 0,
    kaz := 0, kiwxy_lim := 1, kibxy_lim := 1, km := 1, km_lim := 1 }

/-- Concrete seed command. -/
def cmd0 : AttitudeCommand :=
  { euler_x := 0, euler_y := 0, euler_z := 0, thrust := 1 / 2, mass_difference := 0,
    total_mass := 1, disturbance_bx_b := 0, disturbance_by_b := 0, disturbance_bx_w := 0,
    disturbance_by_w := 0, disturbance_wx_w := 0, disturbance_wy_w := 0,
    controller_enforcing_constraints := false }

/-- Concrete vehicle state at the origin, timestamp `1`. -/
def uav0 : UavState :=
  { stamp := 1, frame_id := 0, pos_x := NFl.fin 0, pos_y := NFl.fin 0, pos_z := NFl.fin 0,
    roll := 0, pitch := 0, yaw := 0, vel_x := NFl.fin 0, vel_y := NFl.fin 0,
    vel_z := NFl.fin 0 }

/-- Concrete reference one metre ahead in `x`. -/
def ref0 : Reference :=
  { pos_x := NFl.fin 1, pos_y := NFl.fin 0, pos_z := NFl.fin 0, vel_x := NFl.fin 0,
    vel_y := NFl.fin 0, vel_z := NFl.fin 0, acc_x := NFl.fin 0, acc_y := NFl.fin 0,
    acc_z := NFl.fin 0, yaw := 0, disable_position_gains := false }

/-- Concrete active controller state after its bootstrap tick. -/
def s0 : NsfState :=
  { uav_mass_difference := 0, Iw_w_x := 1 / 2, Iw_w_y := 0, Ib_b_x := 0, Ib_b_y := 0,
    last_update := 0, is_active := true, first_iteration := false,
    last_output_command := some cmd0, activation_control_command := cmd0,
    mute_lateral_gains := false, mutex_lateral_gains_after_toggle := false,
    uav_state := uav0 }

/-! Helper lemmas. -/

/-- The integral saturation block keeps its output inside `±lim` for any
input, finite or not, whenever the limit is nonnegative. -/
theorem abs_satInt_le (v : NFl) (lim : ℚ) (h : 0 ≤ lim) : |satInt v lim| ≤ lim := by
  cases v with
  | bad => simpa [satInt] using h
  | fin q =>
    simp only [satInt]
    split_ifs with h1 h2
    · simpa [abs_of_nonneg h]
    · rw [abs_neg]; simpa [abs_of_nonneg h]
    · rw [abs_le]; constructor <;> linarith

/-- `satInt` on a finite input is the symmetric clamp. -/
theorem satInt_fin (q lim : ℚ) : satInt (NFl.fin q) lim = clampSym q lim := rfl

/-- A value already inside `±lim` passes `satInt` unchanged. -/
theorem satInt_fin_id (q lim : ℚ) (h : |q| ≤ lim) : satInt (NFl.fin q) lim = q := by
  rcases abs_le.mp h with ⟨h1, h2⟩
  simp only [satInt]
  split_ifs with h3 h4 <;> linarith

/-- The thrust saturation block produces a value in `[0, 1]` whenever the
configured saturation lies in `[0, 1]`, for any input. -/
theorem satThrust_bounds (v : NFl) (sat : ℚ) (h0 : 0 ≤ sat) (h1 : sat ≤ 1) :
    0 ≤ (satThrust v sat).1 ∧ (satThrust v sat).1 ≤ 1 := by
  cases v with
  | bad => simp [satThrust]
  | fin q =>
    simp only [satThrust]
    split_ifs with g1 g2
    · exact ⟨h0, h1⟩
    · norm_num
    · exact ⟨le_of_not_lt g2, by linarith [le_of_not_lt g1]⟩

/-- On finite inputs the thrust saturation is exactly the asymmetric
clamp to `[0, sat]`. -/
theorem satThrust_shape (q sat : ℚ) (h0 : 0 ≤ sat) :
    (satThrust (NFl.fin q) sat).1 = max 0 (min q sat) := by
  simp only [satThrust]
  split_ifs with g1 g2
  · rw [min_eq_right (le_of_lt g1), max_eq_right h0]
  · rw [max_eq_left]
    exact le_trans (min_le_left _ _) (le_of_lt g2)
  · rw [min_eq_left (le_of_not_lt g1), max_eq_right (le_of_not_lt g2)]

/-- A flagged tilt saturation implies the input was finite. -/
theorem satTilt_true_fin (v : NFl) (lim : ℚ) (h : (satTilt v lim).2 = true) :
    ∃ q : ℚ, v = NFl.fin q := by
  cases v with
  | bad => simp [satTilt] at h
  | fin q => exact ⟨q, rfl⟩

/-- `fabsQ` agrees with the absolute value. -/
theorem fabsQ_eq_abs (q : ℚ) : fabsQ q = |q| := by
  unfold fabsQ
  split_ifs with h
  · exact (abs_of_neg h).symm
  · exact (abs_of_nonneg (le_of_not_lt h)).symm

/-- Path lemma: an active, post-bootstrap `update` whose `dt` exceeds the
guard runs a full tick on the state with the fresh snapshot and
timestamp stored. -/
theorem update_full_path (T : Tri) (P : Params) (G : Gains) (s : NsfState)
    (uav : UavState) (ref : Reference)
    (ha : s.is_active = true) (hf : s.first_iteration = false)
    (hdt : ¬ fabsQ (uav.stamp - s.last_update) ≤ 1 / 1000) :
    update T P G s uav ref =
      (some (fullTick T P G { s with uav_state := uav, last_update := uav.stamp } uav ref
        (uav.stamp - s.last_update)).1,
       (fullTick T P G { s with uav_state := uav, last_update := uav.stamp } uav ref
        (uav.stamp - s.last_update)).2) := by
  simp only [update]
  rw [if_neg (by simp [ha]), if_neg (by simp [hf]), if_neg hdt]

/-- Vehicle state arriving `0.5 ms` after the stored timestamp
(duplicate/near-duplicate message). -/
def uavDup : UavState := { uav0 with stamp := 1 / 2000 }

/-- Vehicle state with a timestamp `5 s` in the past (negative `dt`). -/
def uavNeg : UavState := { uav0 with stamp := -5 }

/-- Reference used by the negative-`dt` scenario: small vertical error,
no horizontal error beyond `ref0`. -/
def refC1 : Reference := { ref0 with pos_z := NFl.fin (1 / 10) }

/-- The snapshot-uav_state projection of `update` in every branch. -/
theorem update_uav_state (T : Tri) (P : Params) (G : Gains) (s : NsfState)
    (uav : UavState) (ref : Reference) :
    ((update T P G s uav ref).2).uav_state = uav := by
  simp only [update]
  split_ifs <;> rfl

/-- C1 (amended): while `Active`, after the bootstrap tick, whenever
`fabs(dt) <= 0.001` — which covers duplicate messages but, unlike the
claim, not every non-positive `dt` — `update` returns
`lastOutputCommand` if one exists and otherwise the activation command,
and leaves `worldIntegral`, `bodyIntegral` and `massDifference`
untouched; `lastUpdateTime`, however, has already been overwritten with
the new state timestamp. -/
theorem update_timing_anomaly (T : Tri) (P : Params) (G : Gains) (s : NsfState)
    (uav : UavState) (ref : Reference)
    (ha : s.is_active = true) (hf : s.first_iteration = false)
    (hdt : fabsQ (uav.stamp - s.last_update) ≤ 1 / 1000) :
    update T P G s uav ref =
      (some (s.last_output_command.getD s.activation_control_command),
       { s with uav_state := uav, last_update := uav.stamp }) := by
  simp only [update]
  rw [if_neg (by simp [ha]), if_neg (by simp [hf]), if_pos hdt]

/-- C1 witness: a concrete duplicate message (`dt = 1/2000`) hits the
guard of `update_timing_anomaly`. -/
theorem update_timing_anomaly_witness :
    (s0.is_active = true ∧ s0.first_iteration = false ∧
      fabsQ (uavDup.stamp - s0.last_update) ≤ 1 / 1000) ∧
    update tri0 P0 G0 s0 uavDup ref0 =
      (some (s0.last_output_command.getD s0.activation_control_command),
       { s0 with uav_state := uavDup, last_update := uavDup.stamp }) :=
  ⟨⟨rfl, rfl, by decide⟩,
   update_timing_anomaly tri0 P0 G0 s0 uavDup ref0 rfl rfl (by decide)⟩

/-- C1 counterexample.  First conjunct: a positive `dt = 1/2000 ≤ 0.001`
does mutate `lastUpdateTime`, contradicting "performs no state
mutation … lastUpdateTime … unchanged".  Second conjunct: a non-positive
`dt = -5` does not take the guard at all — a full tick runs, mutating
`massDifference` and returning a fresh command instead of
`lastOutputCommand`. -/
theorem update_timing_anomaly_counterexample :
    (uavDup.stamp - s0.last_update ≤ 1 / 1000 ∧ 0 < uavDup.stamp - s0.last_update ∧
      (update tri0 P0 G0 s0 uavDup ref0).2.last_update ≠ s0.last_update) ∧
    (uavNeg.stamp - s0.last_update ≤ 0 ∧
      s0.last_output_command = some cmd0 ∧
      (update tri0 P0 G0 s0 uavNeg refC1).2.uav_mass_difference ≠ s0.uav_mass_difference ∧
      (update tri0 P0 G0 s0 uavNeg refC1).1 ≠ some cmd0) := by
  decide

/-- C6: `activate` without a seed command returns `false` and changes
nothing (an inactive controller stays inactive); `activate` with a seed
command stores the seed, takes `massDifference` from the command, sets
each body/world integral component to
`asin(disturbanceForce / (g * totalMass))` of the command, marks the
bootstrap tick, transitions to `Active`, and returns `true`. -/
theorem activate_spec (T : Tri) (P : Params) (s : NsfState) (c : AttitudeCommand) :
    (activate T P s none).1 = false ∧
    (activate T P s none).2 = s ∧
    (activate T P s (some c)).1 = true ∧
    (activate T P s (some c)).2.is_active = true ∧
    (activate T P s (some c)).2.first_iteration = true ∧
    (activate T P s (some c)).2.uav_mass_difference = c.mass_difference ∧
    (activate T P s (some c)).2.Ib_b_x = T.asinQ (c.disturbance_bx_b / (P.g * c.total_mass)) ∧
    (activate T P s (some c)).2.Ib_b_y = T.asinQ (c.disturbance_by_b / (P.g * c.total_mass)) ∧
    (activate T P s (some c)).2.Iw_w_x = T.asinQ (c.disturbance_wx_w / (P.g * c.total_mass)) ∧
    (activate T P s (some c)).2.Iw_w_y = T.asinQ (c.disturbance_wy_w / (P.g * c.total_mass)) :=
  ⟨rfl, rfl, rfl, rfl, rfl, rfl, rfl, rfl, rfl, rfl⟩

/-- A transform that swaps the two components. -/
def trSwap : ℕ → ℕ → ℚ × ℚ → Option (ℚ × ℚ) := fun _ _ v => some (v.2, v.1)

/-- A transform that always fails. -/
def trFail : ℕ → ℕ → ℚ × ℚ → Option (ℚ × ℚ) := fun _ _ _ => none

/-- Concrete state with `worldIntegral = (1, 2)`. -/
def s9 : NsfState := { s0 with Iw_w_x := 1, Iw_w_y := 2 }

/-- C9: when the supplied transform succeeds on the world integral, the
integral is replaced by the transformed value; when it fails, the
integral is reset to `(0, 0)`; the function returns a plain state in
both cases (no error is propagated). -/
theorem switchOdometrySource_spec (tr : ℕ → ℕ → ℚ × ℚ → Option (ℚ × ℚ))
    (s : NsfState) (msg : UavState) :
    (∀ v : ℚ × ℚ, tr s.uav_state.frame_id msg.frame_id (s.Iw_w_x, s.Iw_w_y) = some v →
      switchOdometrySource tr s msg = { s with Iw_w_x := v.1, Iw_w_y := v.2 }) ∧
    (tr s.uav_state.frame_id msg.frame_id (s.Iw_w_x, s.Iw_w_y) = none →
      switchOdometrySource tr s msg = { s with Iw_w_x := 0, Iw_w_y := 0 }) := by
  constructor
  · intro v h
    simp [switchOdometrySource, h]
  · intro h
    simp [switchOdometrySource, h]

/-- C9 witness: the swap transform turns `worldIntegral = (1, 2)` into
`(2, 1)`; the failing transform resets it to `(0, 0)`. -/
theorem switchOdometrySource_spec_witness :
    (trSwap s9.uav_state.frame_id uav0.frame_id (s9.Iw_w_x, s9.Iw_w_y) = some (2, 1) ∧
      switchOdometrySource trSwap s9 uav0 = { s9 with Iw_w_x := 2, Iw_w_y := 1 }) ∧
    (trFail s9.uav_state.frame_id uav0.frame_id (s9.Iw_w_x, s9.Iw_w_y) = none ∧
      switchOdometrySource trFail s9 uav0 = { s9 with Iw_w_x := 0, Iw_w_y := 0 }) :=
  ⟨⟨rfl, (switchOdometrySource_spec trSwap s9 uav0).1 (2, 1) rfl⟩,
   ⟨rfl, (switchOdometrySource_spec trFail s9 uav0).2 rfl⟩⟩

/-- C10: every `update` call — including while inactive, where no
command is produced — overwrites the stored vehicle-state snapshot with
the supplied state, and `switchOdometrySource` then uses precisely this
snapshot's frame id as the source frame of the transform. -/
theorem update_snapshot_frame (T : Tri) (P : Params) (G : Gains) (s : NsfState)
    (uav : UavState) (ref : Reference)
    (tr : ℕ → ℕ → ℚ × ℚ → Option (ℚ × ℚ)) (msg : UavState) :
    ((update T P G s uav ref).2).uav_state = uav ∧
    (s.is_active = false → (update T P G s uav ref).1 = none) ∧
    switchOdometrySource tr (update T P G s uav ref).2 msg =
      (match tr uav.frame_id msg.frame_id
          ((update T P G s uav ref).2.Iw_w_x, (update T P G s uav ref).2.Iw_w_y) with
       | some v => { (update T P G s uav ref).2 with Iw_w_x := v.1, Iw_w_y := v.2 }
       | none => { (update T P G s uav ref).2 with Iw_w_x := 0, Iw_w_y := 0 }) := by
  refine ⟨update_uav_state T P G s uav ref, ?_, ?_⟩
  · intro h
    simp [update, h]
  · have h1 := update_uav_state T P G s uav ref
    generalize (update T P G s uav ref).2 = s2 at h1 ⊢
    have h2 : tr s2.uav_state.frame_id msg.frame_id (s2.Iw_w_x, s2.Iw_w_y) =
        tr uav.frame_id msg.frame_id (s2.Iw_w_x, s2.Iw_w_y) := by rw [h1]
    unfold switchOdometrySource
    rw [h2]

/-- Projection: the post-tick world integral, X component. -/
theorem fullTick_Iw_x (T : Tri) (P : Params) (G : Gains) (s : NsfState) (uav : UavState)
    (ref : Reference) (dt : ℚ) :
    ((fullTick T P G s uav ref dt).2).Iw_w_x =
      satInt (NFl.fin s.Iw_w_x + NFl.fin G.kiwxy *
        (epX uav ref * NFl.fin
          (if (satTilt (feedbackWX T P G s uav ref) P.max_tilt_angle).2 &&
              (signQ (satTilt (feedbackWX T P G s uav ref) P.max_tilt_angle).1 ==
                signN (epX uav ref))
           then 0 else 1)) * NFl.fin dt) G.kiwxy_lim := rfl

/-- Projection: the post-tick world integral, Y component. -/
theorem fullTick_Iw_y (T : Tri) (P : Params) (G : Gains) (s : NsfState) (uav : UavState)
    (ref : Reference) (dt : ℚ) :
    ((fullTick T P G s uav ref dt).2).Iw_w_y =
      satInt (NFl.fin s.Iw_w_y + NFl.fin G.kiwxy *
        (epY uav ref * NFl.fin
          (if (satTilt (feedbackWY T P G s uav ref) P.max_tilt_angle).2 &&
              (signQ (satTilt (feedbackWY T P G s uav ref) P.max_tilt_angle).1 ==
                signN (epY uav ref))
           then 0 else 1)) * NFl.fin dt) G.kiwxy_lim := rfl

/-- Projection: the post-tick mass-difference estimate. -/
theorem fullTick_mass (T : Tri) (P : Params) (G : Gains) (s : NsfState) (uav : UavState)
    (ref : Reference) (dt : ℚ) :
    ((fullTick T P G s uav ref dt).2).uav_mass_difference =
      satInt (if (satThrust (feedbackWZ T P G s uav ref) P.thrust_saturation).2
              then NFl.fin s.uav_mass_difference
              else NFl.fin s.uav_mass_difference + NFl.fin G.km * epZ uav ref * NFl.fin dt)
        G.km_lim := rfl

/-- Projection: the emitted thrust is the saturated Z feedback. -/
theorem fullTick_thrust (T : Tri) (P : Params) (G : Gains) (s : NsfState) (uav : UavState)
    (ref : Reference) (dt : ℚ) :
    ((fullTick T P G s uav ref dt).1).thrust =
      (satThrust (feedbackWZ T P G s uav ref) P.thrust_saturation).1 := rfl

/-- Reference with non-finite components, used to exercise the
NaN/Inf-recovery path. -/
def refBad : Reference := { ref0 with pos_y := NFl.bad, acc_z := NFl.bad }

/-- C2: after every completed update tick — any inputs, finite or not,
any transcendental-function behaviour — both world-integral components
lie within `±kiwxy_lim`, both body-integral components within
`±kibxy_lim`, and the mass difference within `±km_lim`, provided the
configured limits are nonnegative.  (The post-tick values are rationals
by construction: every store goes through a saturation block whose
`isfinite` guard replaces non-finite values by `0`.) -/
theorem integrals_bounded (T : Tri) (P : Params) (G : Gains) (s : NsfState)
    (uav : UavState) (ref : Reference)
    (hw : 0 ≤ G.kiwxy_lim) (hb : 0 ≤ G.kibxy_lim) (hm : 0 ≤ G.km_lim)
    (ha : s.is_active = true) (hf : s.first_iteration = false)
    (hdt : ¬ fabsQ (uav.stamp - s.last_update) ≤ 1 / 1000) :
    |((update T P G s uav ref).2).Iw_w_x| ≤ G.kiwxy_lim ∧
    |((update T P G s uav ref).2).Iw_w_y| ≤ G.kiwxy_lim ∧
    |((update T P G s uav ref).2).Ib_b_x| ≤ G.kibxy_lim ∧
    |((update T P G s uav ref).2).Ib_b_y| ≤ G.kibxy_lim ∧
    |((update T P G s uav ref).2).uav_mass_difference| ≤ G.km_lim := by
  rw [update_full_path T P G s uav ref ha hf hdt]
  exact ⟨abs_satInt_le _ _ hw, abs_satInt_le _ _ hw, abs_satInt_le _ _ hb,
    abs_satInt_le _ _ hb, abs_satInt_le _ _ hm⟩

/-- C2 witness: a concrete completed tick with non-finite inputs keeps
every estimator inside its limit. -/
theorem integrals_bounded_witness :
    ((0:ℚ) ≤ G0.kiwxy_lim ∧ (0:ℚ) ≤ G0.kibxy_lim ∧ (0:ℚ) ≤ G0.km_lim ∧
      s0.is_active = true ∧ s0.first_iteration = false ∧
      ¬ fabsQ (uav0.stamp - s0.last_update) ≤ 1 / 1000) ∧
    (|((update tri0 P0 G0 s0 uav0 refBad).2).Iw_w_x| ≤ G0.kiwxy_lim ∧
     |((update tri0 P0 G0 s0 uav0 refBad).2).Iw_w_y| ≤ G0.kiwxy_lim ∧
     |((update tri0 P0 G0 s0 uav0 refBad).2).Ib_b_x| ≤ G0.kibxy_lim ∧
     |((update tri0 P0 G0 s0 uav0 refBad).2).Ib_b_y| ≤ G0.kibxy_lim ∧
     |((update tri0 P0 G0 s0 uav0 refBad).2).uav_mass_difference| ≤ G0.km_lim) :=
  ⟨by decide,
   integrals_bounded tri0 P0 G0 s0 uav0 refBad (by decide) (by decide) (by decide)
     (by decide) (by decide) (by decide)⟩

/-- C7: the thrust field of the command emitted by a completed tick lies
in `[0, 1]` whenever the configured thrust saturation does, and on
finite inputs the thrust clamp is asymmetric: lower bound `0`, upper
bound the configured saturation. -/
theorem thrust_in_unit_range (T : Tri) (P : Params) (G : Gains) (s : NsfState)
    (uav : UavState) (ref : Reference) (dt : ℚ)
    (h0 : 0 ≤ P.thrust_saturation) (h1 : P.thrust_saturation ≤ 1) :
    0 ≤ ((fullTick T P G s uav ref dt).1).thrust ∧
    ((fullTick T P G s uav ref dt).1).thrust ≤ 1 ∧
    ∀ q : ℚ, (satThrust (NFl.fin q) P.thrust_saturation).1 =
      max 0 (min q P.thrust_saturation) := by
  refine ⟨?_, ?_, fun q => satThrust_shape q _ h0⟩
  · rw [fullTick_thrust]
    exact (satThrust_bounds _ _ h0 h1).1
  · rw [fullTick_thrust]
    exact (satThrust_bounds _ _ h0 h1).2

/-- C7 witness: a concrete tick emits thrust inside `[0, 1]`, and the
clamp shape evaluated at `5` yields the upper saturation bound. -/
theorem thrust_in_unit_range_witness :
    ((0:ℚ) ≤ P0.thrust_saturation ∧ P0.thrust_saturation ≤ 1) ∧
    0 ≤ ((fullTick tri0 P0 G0 s0 uav0 ref0 1).1).thrust ∧
    ((fullTick tri0 P0 G0 s0 uav0 ref0 1).1).thrust ≤ 1 ∧
    (satThrust (NFl.fin 5) P0.thrust_saturation).1 = max 0 (min 5 P0.thrust_saturation) :=
  ⟨by decide,
   (thrust_in_unit_range tri0 P0 G0 s0 uav0 ref0 1 (by decide) (by decide)).1,
   (thrust_in_unit_range tri0 P0 G0 s0 uav0 ref0 1 (by decide) (by decide)).2.1,
   (thrust_in_unit_range tri0 P0 G0 s0 uav0 ref0 1 (by decide) (by decide)).2.2 5⟩

/-- Reference demanding a large climb (saturates the thrust axis). -/
def refZBig : Reference := { ref0 with pos_z := NFl.fin 10 }

/-- C8: on every completed tick the mass difference accumulates
`km * verticalPositionError * dt` exactly when the thrust axis was not
saturated on that tick, and the result is clamped to `±km_lim`. -/
theorem mass_estimator_spec (T : Tri) (P : Params) (G : Gains) (s : NsfState)
    (uav : UavState) (ref : Reference) (dt ez : ℚ)
    (hez : epZ uav ref = NFl.fin ez) :
    ((satThrust (feedbackWZ T P G s uav ref) P.thrust_saturation).2 = true →
      ((fullTick T P G s uav ref dt).2).uav_mass_difference =
        clampSym s.uav_mass_difference G.km_lim) ∧
    ((satThrust (feedbackWZ T P G s uav ref) P.thrust_saturation).2 = false →
      ((fullTick T P G s uav ref dt).2).uav_mass_difference =
        clampSym (s.uav_mass_difference + G.km * ez * dt) G.km_lim) := by
  rw [fullTick_mass]
  constructor
  · intro h
    rw [h]
    simp [satInt_fin]
  · intro h
    rw [h, hez]
    simp only [Bool.false_eq_true, if_false, NFl.mul_def, NFl.add_def]
    rw [satInt_fin]

/-- C8 witness: with no thrust saturation the accumulation happens
(vertical error `0` here, so the estimate stays `0` after clamping); a
large vertical reference saturates the thrust axis and freezes the
accumulation. -/
theorem mass_estimator_spec_witness :
    (epZ uav0 ref0 = NFl.fin 0 ∧
      (satThrust (feedbackWZ tri0 P0 G0 s0 uav0 ref0) P0.thrust_saturation).2 = false ∧
      ((fullTick tri0 P0 G0 s0 uav0 ref0 1).2).uav_mass_difference =
        clampSym (s0.uav_mass_difference + G0.km * 0 * 1) G0.km_lim) ∧
    (epZ uav0 refZBig = NFl.fin 10 ∧
      (satThrust (feedbackWZ tri0 P0 G0 s0 uav0 refZBig) P0.thrust_saturation).2 = true ∧
      ((fullTick tri0 P0 G0 s0 uav0 refZBig 1).2).uav_mass_difference =
        clampSym s0.uav_mass_difference G0.km_lim) :=
  ⟨⟨by decide, by decide,
    (mass_estimator_spec tri0 P0 G0 s0 uav0 ref0 1 0 (by decide)).2 (by decide)⟩,
   ⟨by decide, by decide,
    (mass_estimator_spec tri0 P0 G0 s0 uav0 refZBig 1 10 (by decide)).1 (by decide)⟩⟩

/-- A non-finite X position error poisons the raw X feedback. -/
theorem feedbackWX_bad_of_ep (T : Tri) (P : Params) (G : Gains) (s : NsfState)
    (uav : UavState) (ref : Reference) (h : epX uav ref = NFl.bad) :
    feedbackWX T P G s uav ref = NFl.bad := by
  unfold feedbackWX
  rw [h]
  simp

/-- A non-finite Y position error poisons the raw Y feedback. -/
theorem feedbackWY_bad_of_ep (T : Tri) (P : Params) (G : Gains) (s : NsfState)
    (uav : UavState) (ref : Reference) (h : epY uav ref = NFl.bad) :
    feedbackWY T P G s uav ref = NFl.bad := by
  unfold feedbackWY
  rw [h]
  simp

/-- C3: on a completed tick, if a horizontal axis saturated and the sign
of the saturated feedback matches the sign of the position error on that
axis, the corresponding world-integral component is unchanged by the
tick (given that, as the C2 invariant guarantees, it started inside its
configured limit). -/
theorem world_integral_antiwindup (T : Tri) (P : Params) (G : Gains) (s : NsfState)
    (uav : UavState) (ref : Reference) (dt : ℚ) :
    (((satTilt (feedbackWX T P G s uav ref) P.max_tilt_angle).2 = true →
      signQ (satTilt (feedbackWX T P G s uav ref) P.max_tilt_angle).1 = signN (epX uav ref) →
      fabsQ s.Iw_w_x ≤ G.kiwxy_lim →
      ((fullTick T P G s uav ref dt).2).Iw_w_x = s.Iw_w_x)) ∧
    (((satTilt (feedbackWY T P G s uav ref) P.max_tilt_angle).2 = true →
      signQ (satTilt (feedbackWY T P G s uav ref) P.max_tilt_angle).1 = signN (epY uav ref) →
      fabsQ s.Iw_w_y ≤ G.kiwxy_lim →
      ((fullTick T P G s uav ref dt).2).Iw_w_y = s.Iw_w_y)) := by
  constructor
  · intro hx1 hx2 hx3
    rw [fabsQ_eq_abs] at hx3
    obtain ⟨e, he⟩ : ∃ e, epX uav ref = NFl.fin e := by
      cases hcase : epX uav ref with
      | fin e => exact ⟨e, rfl⟩
      | bad =>
        rw [feedbackWX_bad_of_ep T P G s uav ref hcase] at hx1
        simp [satTilt] at hx1
    have hcond : ((satTilt (feedbackWX T P G s uav ref) P.max_tilt_angle).2 &&
        (signQ (satTilt (feedbackWX T P G s uav ref) P.max_tilt_angle).1 ==
          signN (epX uav ref))) = true := by
      rw [hx1, hx2]
      simp
    rw [fullTick_Iw_x, hcond, he]
    simp only [if_true, NFl.mul_def, NFl.add_def, mul_zero, zero_mul, add_zero]
    exact satInt_fin_id _ _ hx3
  · intro hy1 hy2 hy3
    rw [fabsQ_eq_abs] at hy3
    obtain ⟨e, he⟩ : ∃ e, epY uav ref = NFl.fin e := by
      cases hcase : epY uav ref with
      | fin e => exact ⟨e, rfl⟩
      | bad =>
        rw [feedbackWY_bad_of_ep T P G s uav ref hcase] at hy1
        simp [satTilt] at hy1
    have hcond : ((satTilt (feedbackWY T P G s uav ref) P.max_tilt_angle).2 &&
        (signQ (satTilt (feedbackWY T P G s uav ref) P.max_tilt_angle).1 ==
          signN (epY uav ref))) = true := by
      rw [hy1, hy2]
      simp
    rw [fullTick_Iw_y, hcond, he]
    simp only [if_true, NFl.mul_def, NFl.add_def, mul_zero, zero_mul, add_zero]
    exact satInt_fin_id _ _ hy3

/-- Reference saturating both horizontal axes with errors of matching
sign (`Ep = (1, 1, 0)` against tilt limit `1/10`). -/
def refXY : Reference := { ref0 with pos_y := NFl.fin (-1) }

/-- C3 witness: with both horizontal axes saturated in the direction of
the position error, neither world-integral component moves. -/
theorem world_integral_antiwindup_witness :
    ((satTilt (feedbackWX tri0 P0 G0 s0 uav0 refXY) P0.max_tilt_angle).2 = true ∧
      signQ (satTilt (feedbackWX tri0 P0 G0 s0 uav0 refXY) P0.max_tilt_angle).1 =
        signN (epX uav0 refXY) ∧
      fabsQ s0.Iw_w_x ≤ G0.kiwxy_lim ∧
      ((fullTick tri0 P0 G0 s0 uav0 refXY 1).2).Iw_w_x = s0.Iw_w_x) ∧
    ((satTilt (feedbackWY tri0 P0 G0 s0 uav0 refXY) P0.max_tilt_angle).2 = true ∧
      signQ (satTilt (feedbackWY tri0 P0 G0 s0 uav0 refXY) P0.max_tilt_angle).1 =
        signN (epY uav0 refXY) ∧
      fabsQ s0.Iw_w_y ≤ G0.kiwxy_lim ∧
      ((fullTick tri0 P0 G0 s0 uav0 refXY 1).2).Iw_w_y = s0.Iw_w_y) :=
  ⟨⟨by decide, by decide, by decide,
    (world_integral_antiwindup tri0 P0 G0 s0 uav0 refXY 1).1 (by decide) (by decide)
      (by decide)⟩,
   ⟨by decide, by decide, by decide,
    (world_integral_antiwindup tri0 P0 G0 s0 uav0 refXY 1).2 (by decide) (by decide)
      (by decide)⟩⟩

/-- The mute flag after a trace is the `disable` value of the last
control tick. -/
theorem muteRun_fst (es : List GEvent) :
    ∀ m a : Bool, (muteRun (m, a) es).1 = lastDisable m es := by
  induction es with
  | nil => intro m a; rfl
  | cons e es ih =>
    intro m a
    cases e with
    | updTick d => exact ih d _
    | gainsTick => exact ih m false

/-- The pending-toggle flag after a trace holds exactly when the initial
pending flag survived a gains-tick-free trace or some control tick
switched the mute flag from `true` to `false` with no gains tick
afterwards. -/
theorem muteRun_snd (es : List GEvent) :
    ∀ m a : Bool,
      (muteRun (m, a) es).2 = ((a && !hasGainsTick es) || toggleOffPending m es) := by
  induction es with
  | nil => intro m a; simp [muteRun, hasGainsTick, toggleOffPending]
  | cons e es ih =>
    intro m a
    cases e with
    | updTick d =>
      simp only [muteRun, muteStep, hasGainsTick, toggleOffPending]
      rw [ih]
      cases a <;> cases m <;> cases d <;> cases hG : hasGainsTick es <;> simp [hG]
    | gainsTick =>
      simp only [muteRun, muteStep, hasGainsTick, toggleOffPending]
      rw [ih]
      simp

/-- C5 (amended): the mute flags evolve exactly as `muteStep` describes
(control ticks set the mute flag from the reference and latch the
toggle-off, the gain-scheduler tick clears the latch); the scheduler
hands `bypassFilter` — mute OR pending toggle-off — to
`calculateGainChange` for the lateral gains; and over every event trace
the bypass at the next gains tick is true if and only if the lateral
gains are currently muted or the mute flag was switched off since the
previous gains tick — not only on the single tick after a toggle-off, as
claimed. -/
theorem bypass_rate_limit_spec :
    (∀ (T : Tri) (P : Params) (G : Gains) (s : NsfState) (uav : UavState)
        (ref : Reference) (dt : ℚ),
      ((fullTick T P G s uav ref dt).2.mute_lateral_gains,
       (fullTick T P G s uav ref dt).2.mutex_lateral_gains_after_toggle) =
        muteStep (s.mute_lateral_gains, s.mutex_lateral_gains_after_toggle)
          (GEvent.updTick ref.disable_position_gains)) ∧
    (∀ (P : Params) (dg g : Gains) (m a : Bool),
      (timerGainsFilter P dg g m a).2 = false ∧
      (timerGainsFilter P dg g m a).1.kpxy =
        calculateGainChange P.gains_filter_max_change P.gains_filter_min_change g.kpxy
          (dg.kpxy * (if m then P.mute_coefficitent else 1)) (bypassFilter m a)) ∧
    (∀ es : List GEvent,
      bypassFilter (muteRun (false, false) es).1 (muteRun (false, false) es).2 =
        (lastDisable false es || toggleOffPending false es)) := by
  refine ⟨fun T P G s uav ref dt => rfl, fun P dg g m a => ⟨rfl, rfl⟩, fun es => ?_⟩
  unfold bypassFilter
  rw [muteRun_fst, muteRun_snd]
  simp

/-- Reference with lateral-gain muting requested. -/
def refMute : Reference := { ref0 with disable_position_gains := true }

/-- C5 counterexample: after a control tick that merely switches muting
on (so no true-to-false transition ever happened and the toggle-off
latch is clear), the next gain-scheduler tick is handed `bypass = true`
— the claim says the bypass is false on every tick other than the one
following a toggle-off. -/
theorem bypass_rate_limit_counterexample :
    (fullTick tri0 P0 G0 s0 uav0 refMute 1).2.mute_lateral_gains = true ∧
    (fullTick tri0 P0 G0 s0 uav0 refMute 1).2.mutex_lateral_gains_after_toggle = false ∧
    bypassFilter (fullTick tri0 P0 G0 s0 uav0 refMute 1).2.mute_lateral_gains
      (fullTick tri0 P0 G0 s0 uav0 refMute 1).2.mutex_lateral_gains_after_toggle = true := by
  decide

/-- A step `u` that has the sign of `d - c` and magnitude at most
`|d - c|` keeps `c + u` between `c` and `d`. -/
theorem between_of_step (c d u : ℚ)
    (h : (0 ≤ u ∧ u ≤ d - c) ∨ (d - c ≤ u ∧ u ≤ 0)) :
    min c d ≤ c + u ∧ c + u ≤ max c d := by
  rcases h with ⟨h1, h2⟩ | ⟨h1, h2⟩
  · exact ⟨le_trans (min_le_left _ _) (by linarith),
      le_trans (by linarith : c + u ≤ d) (le_max_right _ _)⟩
  · exact ⟨le_trans (min_le_right _ _) (by linarith),
      le_trans (by linarith : c + u ≤ c) (le_max_left _ _)⟩

/-- Scaling a gap by a factor in `[0, 1]` yields a step of the same sign
and no larger magnitude. -/
theorem scaled_step (ch t : ℚ) (h0 : 0 ≤ t) (h1 : t ≤ 1) :
    (0 ≤ ch * t ∧ ch * t ≤ ch) ∨ (ch ≤ ch * t ∧ ch * t ≤ 0) := by
  rcases le_or_lt 0 ch with h | h
  · left
    exact ⟨mul_nonneg h h0, by nlinarith⟩
  · right
    exact ⟨by nlinarith, by nlinarith⟩

/-- C4 (amended): one rate-limited advance (`bypass_rate = false`) moves
the gain monotonically toward the desired value and never overshoots —
the new value always lies between the current and the desired value —
whenever the configured change fractions lie in `[0, 1]`.  The claimed
bound of `1/maxChangeFraction` on the number of steps needed to reach
the desired value does not hold (see the counterexample). -/
theorem calculateGainChange_between (gmax gmin c d : ℚ)
    (h1 : 0 ≤ gmax) (h2 : gmax ≤ 1) (h3 : 0 ≤ gmin) (h4 : gmin ≤ 1) :
    min c d ≤ calculateGainChange gmax gmin c d false ∧
    calculateGainChange gmax gmin c d false ≤ max c d := by
  simp only [calculateGainChange, Bool.false_eq_true, if_false]
  apply between_of_step
  split_ifs with hnz hp hf hp2 hf2 hf3
  · exact scaled_step _ _ h1 h2
  · exact scaled_step _ _ h3 h4
  · have hcne : c ≠ 0 := by
      intro h
      rw [h] at hnz
      simp [fabsQ] at hnz
    have hperc : (c + (d - c)) / c - 1 = (d - c) / c := by
      field_simp
    rw [hperc] at hp
    rcases lt_or_gt_of_ne hcne with hcneg | hcpos
    · right
      have h5 : d - c < gmax * c := (lt_div_iff_of_neg hcneg).mp hp
      constructor
      · nlinarith
      · nlinarith
    · left
      have h5 : gmax * c < d - c := (lt_div_iff hcpos).mp hp
      constructor
      · nlinarith
      · nlinarith
  · exact scaled_step _ _ h3 h4
  · have hcne : c ≠ 0 := by
      intro h
      rw [h] at hnz
      simp [fabsQ] at hnz
    have hperc : (c + (d - c)) / c - 1 = (d - c) / c := by
      field_simp
    rw [hperc] at hp2
    rcases lt_or_gt_of_ne hcne with hcneg | hcpos
    · left
      have h5 : -gmax * c < d - c := (div_lt_iff_of_neg hcneg).mp hp2
      constructor
      · nlinarith
      · nlinarith
    · right
      have h5 : d - c < -gmax * c := (div_lt_iff hcpos).mp hp2
      constructor
      · nlinarith
      · nlinarith
  · exact scaled_step _ _ h3 h4
  · rcases le_total 0 (d - c) with h | h
    · exact Or.inl ⟨h, le_refl _⟩
    · exact Or.inr ⟨le_refl _, h⟩

/-- C4 witness: one advance from `1` toward `100` stays between them. -/
theorem calculateGainChange_between_witness :
    ((0:ℚ) ≤ 1 / 10 ∧ (1:ℚ) / 10 ≤ 1 ∧ (0:ℚ) ≤ 1 / 100 ∧ (1:ℚ) / 100 ≤ 1) ∧
    (min 1 100 ≤ calculateGainChange (1 / 10) (1 / 100) 1 100 false ∧
      calculateGainChange (1 / 10) (1 / 100) 1 100 false ≤ max 1 100) :=
  ⟨⟨by decide, by decide, by decide, by decide⟩,
   calculateGainChange_between (1 / 10) (1 / 100) 1 100 (by decide) (by decide)
     (by decide) (by decide)⟩

/-- C4 counterexample: with `maxChangeFraction = minChangeFraction =
1/10` the advance from `1` toward a fixed desired value `100` has not
reached it after `1/maxChangeFraction = 10` steps — nor at any earlier
step — so the claimed step bound fails. -/
theorem calculateGainChange_counterexample :
    gainIter 0 ≠ 100 ∧ gainIter 1 ≠ 100 ∧ gainIter 2 ≠ 100 ∧ gainIter 3 ≠ 100 ∧
    gainIter 4 ≠ 100 ∧ gainIter 5 ≠ 100 ∧ gainIter 6 ≠ 100 ∧ gainIter 7 ≠ 100 ∧
    gainIter 8 ≠ 100 ∧ gainIter 9 ≠ 100 ∧ gainIter 10 ≠ 100 := by
  decide

/-- An inactive controller state. -/
def sInactive : NsfState := { s0 with is_active := false }

/-- C10 witness: even an inactive `update` call stores the snapshot and
returns no command. -/
theorem update_snapshot_frame_witness :
    sInactive.is_active = false ∧
    ((update tri0 P0 G0 sInactive uav0 ref0).2).uav_state = uav0 ∧
    (update tri0 P0 G0 sInactive uav0 ref0).1 = none :=
  ⟨rfl,
   (update_snapshot_frame tri0 P0 G0 sInactive uav0 ref0 trSwap uav0).1,
   (update_snapshot_frame tri0 P0 G0 sInactive uav0 ref0 trSwap uav0).2.1 rfl⟩
